import Mathlib

/-!
Shallow embedding of the EGTS packet encoder (`egts-emul.py`): the CRC
tables, the checksum routines, the `EGTStrack` session state with its
`add_service` subrecord encoder and `new_message` packet assembler.
Byte strings are modelled as `List Nat` (each entry one byte).  Python's
`int.to_bytes(w, 'little')` is modelled by `to_bytes_le`, which returns
`none` exactly when Python raises `OverflowError` (value negative or not
fitting in `w` bytes).  Coordinate arithmetic, done on IEEE doubles in
Python, is modelled with exact rational arithmetic; Python's `int(x)`
truncation toward zero is `pytrunc`.  The network/demo driver at the
bottom of the source file is out of scope and not modelled.
-/

/-- CRC8_TABLE from the source, verbatim (256 entries). -/
def CRC8_TABLE : List Nat := [
  0x00, 0x31, 0x62, 0x53, 0xC4, 0xF5, 0xA6, 0x97,
  0xB9, 0x88, 0xDB, 0xEA, 0x7D, 0x4C, 0x1F, 0x2E,
  0x43, 0x72, 0x21, 0x10, 0x87, 0xB6, 0xE5, 0xD4,
  0xFA, 0xCB, 0x98, 0xA9, 0x3E, 0x0F, 0x5C, 0x6D,
  0x86, 0xB7, 0xE4, 0xD5, 0x42, 0x73, 0x20, 0x11,
  0x3F, 0x0E, 0x5D, 0x6C, 0xFB, 0xCA, 0x99, 0xA8,
  0xC5, 0xF4, 0xA7, 0x96, 0x01, 0x30, 0x63, 0x52,
  0x7C, 0x4D, 0x1E, 0x2F, 0xB8, 0x89, 0xDA, 0xEB,
  0x3D, 0x0C, 0x5F, 0x6E, 0xF9, 0xC8, 0x9B, 0xAA,
  0x84, 0xB5, 0xE6, 0xD7, 0x40, 0x71, 0x22, 0x13,
  0x7E, 0x4F, 0x1C, 0x2D, 0xBA, 0x8B, 0xD8, 0xE9,
  0xC7, 0xF6, 0xA5, 0x94, 0x03, 0x32, 0x61, 0x50,
  0xBB, 0x8A, 0xD9, 0xE8, 0x7F, 0x4E, 0x1D, 0x2C,
  0x02, 0x33, 0x60, 0x51, 0xC6, 0xF7, 0xA4, 0x95,
  0xF8, 0xC9, 0x9A, 0xAB, 0x3C, 0x0D, 0x5E, 0x6F,
  0x41, 0x70, 0x23, 0x12, 0x85, 0xB4, 0xE7, 0xD6,
  0x7A, 0x4B, 0x18, 0x29, 0xBE, 0x8F, 0xDC, 0xED,
  0xC3, 0xF2, 0xA1, 0x90, 0x07, 0x36, 0x65, 0x54,
  0x39, 0x08, 0x5B, 0x6A, 0xFD, 0xCC, 0x9F, 0xAE,
  0x80, 0xB1, 0xE2, 0xD3, 0x44, 0x75, 0x26, 0x17,
  0xFC, 0xCD, 0x9E, 0xAF, 0x38, 0x09, 0x5A, 0x6B,
  0x45, 0x74, 0x27, 0x16, 0x81, 0xB0, 0xE3, 0xD2,
  0xBF, 0x8E, 0xDD, 0xEC, 0x7B, 0x4A, 0x19, 0x28,
  0x06, 0x37, 0x64, 0x55, 0xC2, 0xF3, 0xA0, 0x91,
  0x47, 0x76, 0x25, 0x14, 0x83, 0xB2, 0xE1, 0xD0,
  0xFE, 0xCF, 0x9C, 0xAD, 0x3A, 0x0B, 0x58, 0x69,
  0x04, 0x35, 0x66, 0x57, 0xC0, 0xF1, 0xA2, 0x93,
  0xBD, 0x8C, 0xDF, 0xEE, 0x79, 0x48, 0x1B, 0x2A,
  0xC1, 0xF0, 0xA3, 0x92, 0x05, 0x34, 0x67, 0x56,
  0x78, 0x49, 0x1A, 0x2B, 0xBC, 0x8D, 0xDE, 0xEF,
  0x82, 0xB3, 0xE0, 0xD1, 0x46, 0x77, 0x24, 0x15,
  0x3B, 0x0A, 0x59, 0x68, 0xFF, 0xCE, 0x9D, 0xAC]

/-- CRC16_TABLE from the source, verbatim (256 entries). -/
def CRC16_TABLE : List Nat := [
  0x0000, 0x1021, 0x2042, 0x3063, 0x4084, 0x50a5,
  0x60c6, 0x70e7, 0x8108, 0x9129, 0xa14a, 0xb16b,
  0xc18c, 0xd1ad, 0xe1ce, 0xf1ef, 0x1231, 0x0210,
  0x3273, 0x2252, 0x52b5, 0x4294, 0x72f7, 0x62d6,
  0x9339, 0x8318, 0xb37b, 0xa35a, 0xd3bd, 0xc39c,
  0xf3ff, 0xe3de, 0x2462, 0x3443, 0x0420, 0x1401,
  0x64e6, 0x74c7, 0x44a4, 0x5485, 0xa56a, 0xb54b,
  0x8528, 0x9509, 0xe5ee, 0xf5cf, 0xc5ac, 0xd58d,
  0x3653, 0x2672, 0x1611, 0x0630, 0x76d7, 0x66f6,
  0x5695, 0x46b4, 0xb75b, 0xa77a, 0x9719, 0x8738,
  0xf7df, 0xe7fe, 0xd79d, 0xc7bc, 0x48c4, 0x58e5,
  0x6886, 0x78a7, 0x0840, 0x1861, 0x2802, 0x3823,
  0xc9cc, 0xd9ed, 0xe98e, 0xf9af, 0x8948, 0x9969,
  0xa90a, 0xb92b, 0x5af5, 0x4ad4, 0x7ab7, 0x6a96,
  0x1a71, 0x0a50, 0x3a33, 0x2a12, 0xdbfd, 0xcbdc,
  0xfbbf, 0xeb9e, 0x9b79, 0x8b58, 0xbb3b, 0xab1a,
  0x6ca6, 0x7c87, 0x4ce4, 0x5cc5, 0x2c22, 0x3c03,
  0x0c60, 0x1c41, 0xedae, 0xfd8f, 0xcdec, 0xddcd,
  0xad2a, 0xbd0b, 0x8d68, 0x9d49, 0x7e97, 0x6eb6,
  0x5ed5, 0x4ef4, 0x3e13, 0x2e32, 0x1e51, 0x0e70,
  0xff9f, 0xefbe, 0xdfdd, 0xcffc, 0xbf1b, 0xaf3a,
  0x9f59, 0x8f78, 0x9188, 0x81a9, 0xb1ca, 0xa1eb,
  0xd10c, 0xc12d, 0xf14e, 0xe16f, 0x1080, 0x00a1,
  0x30c2, 0x20e3, 0x5004, 0x4025, 0x7046, 0x6067,
  0x83b9, 0x9398, 0xa3fb, 0xb3da, 0xc33d, 0xd31c,
  0xe37f, 0xf35e, 0x02b1, 0x1290, 0x22f3, 0x32d2,
  0x4235, 0x5214, 0x6277, 0x7256, 0xb5ea, 0xa5cb,
  0x95a8, 0x8589, 0xf56e, 0xe54f, 0xd52c, 0xc50d,
  0x34e2, 0x24c3, 0x14a0, 0x0481, 0x7466, 0x6447,
  0x5424, 0x4405, 0xa7db, 0xb7fa, 0x8799, 0x97b8,
  0xe75f, 0xf77e, 0xc71d, 0xd73c, 0x26d3, 0x36f2,
  0x0691, 0x16b0, 0x6657, 0x7676, 0x4615, 0x5634,
  0xd94c, 0xc96d, 0xf90e, 0xe92f, 0x99c8, 0x89e9,
  0xb98a, 0xa9ab, 0x5844, 0x4865, 0x7806, 0x6827,
  0x18c0, 0x08e1, 0x3882, 0x28a3, 0xcb7d, 0xdb5c,
  0xeb3f, 0xfb1e, 0x8bf9, 0x9bd8, 0xabbb, 0xbb9a,
  0x4a75, 0x5a54, 0x6a37, 0x7a16, 0x0af1, 0x1ad0,
  0x2ab3, 0x3a92, 0xfd2e, 0xed0f, 0xdd6c, 0xcd4d,
  0xbdaa, 0xad8b, 0x9de8, 0x8dc9, 0x7c26, 0x6c07,
  0x5c64, 0x4c45, 0x3ca2, 0x2c83, 0x1ce0, 0x0cc1,
  0xef1f, 0xff3e, 0xcf5d, 0xdf7c, 0xaf9b, 0xbfba,
  0x8fd9, 0x9ff8, 0x6e17, 0x7e36, 0x4e55, 0x5e74,
  0x2e93, 0x3eb2, 0x0ed1, 0x1ef0]

/-- Little-endian byte list of `n` over exactly `w` bytes (value taken mod 2^(8w)). -/
def leBytes : Nat → Nat → List Nat
  | 0, _ => []
  | w + 1, n => n % 256 :: leBytes w (n / 256)

/-- Python `int.to_bytes(w, 'little')` on a natural number: `none` models
the `OverflowError` raised when the value does not fit in `w` bytes. -/
def to_bytes_le (w n : Nat) : Option (List Nat) :=
  if n < 2 ^ (8 * w) then some (leBytes w n) else none

/-- Python `int.to_bytes(w, 'little')` on a possibly negative integer:
`none` models the `OverflowError` raised for a negative value or one not
fitting in `w` bytes. -/
def to_bytes_le_int (w : Nat) (n : Int) : Option (List Nat) :=
  if 0 ≤ n ∧ n < 2 ^ (8 * w) then some (leBytes w n.toNat) else none

/-- Loop body of `EGTStrack.header_crc` (lines 254-258 of the source):
`crc = CRC8_TABLE[crc ^ header[i]]` over the remaining input. -/
def header_crc_go (crc : Nat) : List Nat → Nat
  | [] => crc
  | b :: rest => header_crc_go (CRC8_TABLE.getD (crc ^^^ b) 0) rest

/-- `EGTStrack.header_crc`: CRC-8 with initial value 0xFF. -/
def header_crc (header : List Nat) : Nat := header_crc_go 0xFF header

/-- Loop body of `EGTStrack.data_crc` (lines 266-270 of the source):
`crc = ((crc << 8) % 0x10000) ^ CRC16_TABLE[(crc >> 8) ^ data[i]]`. -/
def data_crc_go (crc : Nat) : List Nat → Nat
  | [] => crc
  | b :: rest =>
      data_crc_go (((crc <<< 8) % 0x10000) ^^^ CRC16_TABLE.getD ((crc >>> 8) ^^^ b) 0) rest

/-- `EGTStrack.data_crc`: CRC-16 with initial value 0xFFFF. -/
def data_crc (data : List Nat) : Nat := data_crc_go 0xFFFF data

/-- Session state of an `EGTStrack` object.  `tid` is `self._tid`,
`imei` the UTF-8 bytes of `self._imei`, `pt` the byte string
`self._pt`, `service` is `self._service` (`none` models Python `None`),
`pid` is `self._pid` and `rn` is `self._rn`.  The cache fields
`_hcs`, `_sfrcs`, `_fdl` are omitted: each is written by `new_message`
before any read, so they carry no observable state. -/
structure EGTStrack where
  tid : Nat
  imei : List Nat
  pt : List Nat
  service : Option (List Nat)
  pid : Nat
  rn : Nat
deriving DecidableEq

/-- Python exceptions that `add_service` can raise: `OverflowError`
from an `int.to_bytes` call, and the `UnboundLocalError` reached at
line 202 when `record_types` matches no branch. -/
inductive PyErr where
  | overflowError
  | unboundLocalError
deriving DecidableEq

/-- Python `int(x)` on an exact rational: truncation toward zero. -/
def pytrunc (q : ℚ) : Int := Int.tdiv q.num q.den

/-- Line 171: `int(abs(kwargs['long']) / 180 * 0xFFFFFFFF)`. -/
def coord_long (long : ℚ) : Int := pytrunc (|long| / 180 * 0xFFFFFFFF)

/-- Line 172: `int(abs(kwargs['lat']) / 90 * 0xFFFFFFFF)`. -/
def coord_lat (lat : ℚ) : Int := pytrunc (|lat| / 90 * 0xFFFFFFFF)

/-- Lines 166-170: `llflags = 1`, `|= 2` if longitude negative,
`|= 4` if latitude negative. -/
def llflags_calc (long lat : ℚ) : Nat :=
  let f1 : Nat := if long < 0 then 1 ||| 2 else 1
  if lat < 0 then f1 ||| 4 else f1

/-- `'0000000000000000'.encode('utf-8')` (IMSI placeholder, line 132). -/
def imsiPlaceholder : List Nat := List.replicate 16 48

/-- `'rus'.encode('utf-8')` (line 133). -/
def countryRus : List Nat := [114, 117, 115]

/-- `'000000000000000'.encode('utf-8')` (MSISDN placeholder, line 134). -/
def msisdnPlaceholder : List Nat := List.replicate 15 48

/-- The fixed type-2 body bytes (lines 144-153):
`b'\x03' + b'\x11111111' + b'\x1111' + b'\x1111' + b'\x01' + b'\x01'
 + b'\x00' + b'\x00' + b'\x11111111'` (49 is the char '1'). -/
def mservice2 : List Nat :=
  [3] ++ [17, 49, 49, 49, 49, 49, 49] ++ [17, 49, 49] ++ [17, 49, 49]
    ++ [1] ++ [1] ++ [0] ++ [0] ++ [17, 49, 49, 49, 49, 49, 49]

/-- Lines 126-138 after `oid`/`tm` conversion: type-1 body, its length
prefix, and the record header.  The second `self._tid.to_bytes(4)` at
line 129 yields the same bytes as `oid` from line 122.  Each `none`
match arm propagates the `OverflowError` of the corresponding
`to_bytes` call. -/
def build1rest (oid tmB rnB imei : List Nat) : Option (List Nat) :=
  match to_bytes_le 2 (oid ++ [0x9E] ++ imei ++ imsiPlaceholder ++ countryRus ++ msisdnPlaceholder).length with
  | none => none
  | some srl =>
    match to_bytes_le 2 ([1] ++ srl ++ (oid ++ [0x9E] ++ imei ++ imsiPlaceholder ++ countryRus ++ msisdnPlaceholder)).length with
    | none => none
    | some rl =>
      some (rl ++ rnB ++ [5] ++ oid ++ tmB ++ [1] ++ [1]
        ++ ([1] ++ srl ++ (oid ++ [0x9E] ++ imei ++ imsiPlaceholder ++ countryRus ++ msisdnPlaceholder)))

/-- Lines 140-157: the whole type-2 branch body (it never assigns
`self._pt`, so it is a pure byte computation). -/
def build2rest (tid tm : Nat) (rnB : List Nat) : Option (List Nat) :=
  match to_bytes_le 4 tid with
  | none => none
  | some oid =>
    match to_bytes_le 4 tm with
    | none => none
    | some tmB =>
      match to_bytes_le 2 mservice2.length with
      | none => none
      | some srl =>
        match to_bytes_le 2 ([2] ++ srl ++ mservice2).length with
        | none => none
        | some rl =>
          some (rl ++ rnB ++ [5] ++ oid ++ tmB ++ [1] ++ [1] ++ ([2] ++ srl ++ mservice2))

/-- Lines 165-186 after `oid`/`tm` conversion: the type-16 position
body.  `ntm` is the second `datetime.now()` reading at line 173;
`[176, 4, 0]` is `int(1200).to_bytes(3, 'little')`;
`[0]` bytes are `int(0).to_bytes(1)` (direction) and `b'\x00'` (source);
`[1]` is the digital-inputs byte `b'\x01'`. -/
def build16rest (oid tmB rnB : List Nat) (ntm : Nat) (long lat speed : ℚ) :
    Option (List Nat) :=
  match to_bytes_le_int 4 (coord_long long) with
  | none => none
  | some longB =>
    match to_bytes_le_int 4 (coord_lat lat) with
    | none => none
    | some latB =>
      match to_bytes_le 4 ntm with
      | none => none
      | some ntmB =>
        match to_bytes_le 1 (llflags_calc long lat) with
        | none => none
        | some flagsB =>
          match to_bytes_le_int 2 (pytrunc (speed * 10)) with
          | none => none
          | some spdB =>
            match to_bytes_le 2 (ntmB ++ latB ++ longB ++ flagsB ++ spdB
                ++ [0] ++ [176, 4, 0] ++ [1] ++ [0]).length with
            | none => none
            | some srl =>
              match to_bytes_le 2 ([16] ++ srl ++ (ntmB ++ latB ++ longB ++ flagsB ++ spdB
                  ++ [0] ++ [176, 4, 0] ++ [1] ++ [0])).length with
              | none => none
              | some rl =>
                some (rl ++ rnB ++ [5] ++ oid ++ tmB ++ [2] ++ [2]
                  ++ ([16] ++ srl ++ (ntmB ++ latB ++ longB ++ flagsB ++ spdB
                    ++ [0] ++ [176, 4, 0] ++ [1] ++ [0])))

/-- Lines 189-201: the type-4 branch after the `self._pt` assignment.
Its record header keeps the default flags `b'\x00'` and service types
`b'\x01'` and omits `object_id`/`time`. -/
def build4rest (tid : Nat) (imei rnB : List Nat) : Option (List Nat) :=
  match to_bytes_le 4 tid with
  | none => none
  | some oid =>
    match to_bytes_le 2 ([2] ++ [2] ++ oid ++ [2] ++ imei).length with
    | none => none
    | some srl =>
      match to_bytes_le 2 ([4] ++ srl ++ ([2] ++ [2] ++ oid ++ [2] ++ imei)).length with
      | none => none
      | some rl =>
        some (rl ++ rnB ++ [0] ++ [1] ++ [1] ++ ([4] ++ srl ++ ([2] ++ [2] ++ oid ++ [2] ++ imei)))

/-- `EGTStrack.add_service` (lines 113-204).  `tm` is the
`get_date_time(datetime.now())` reading used for the record header and
`ntm` the second reading used inside the type-16 body; both are
external clock inputs (spec §6).  The pair's second component is the
exception the Python call would raise (`none` on success); the first
component is the object state after the call, including the mutations
that survive an exception: lines 114-115 replace a `None` buffer by
`b''` before anything can fail, and branches 1, 16 and 4 assign
`self._pt = b'\x01'` before their later `to_bytes` calls. -/
def add_service (s : EGTStrack) (record_types tm ntm : Nat) (long lat speed : ℚ) :
    EGTStrack × Option PyErr :=
  let service0 := s.service.getD []
  let s1 : EGTStrack := { s with service := some service0 }
  match to_bytes_le 2 s.rn with
  | none => (s1, some PyErr.overflowError)
  | some rnB =>
    if record_types = 1 then
      match to_bytes_le 4 s.tid, to_bytes_le 4 tm with
      | some oid, some tmB =>
        let s2 : EGTStrack := { s1 with pt := [1] }
        match build1rest oid tmB rnB s.imei with
        | some recB =>
            ({ s2 with service := some (service0 ++ recB), rn := s.rn + 1 }, none)
        | none => (s2, some PyErr.overflowError)
      | _, _ => (s1, some PyErr.overflowError)
    else if record_types = 2 then
      match build2rest s.tid tm rnB with
      | some recB =>
          ({ s1 with service := some (service0 ++ recB), rn := s.rn + 1 }, none)
      | none => (s1, some PyErr.overflowError)
    else if record_types = 16 then
      match to_bytes_le 4 s.tid, to_bytes_le 4 tm with
      | some oid, some tmB =>
        let s2 : EGTStrack := { s1 with pt := [1] }
        match build16rest oid tmB rnB ntm long lat speed with
        | some recB =>
            ({ s2 with service := some (service0 ++ recB), rn := s.rn + 1 }, none)
        | none => (s2, some PyErr.overflowError)
      | _, _ => (s1, some PyErr.overflowError)
    else if record_types = 4 then
      let s2 : EGTStrack := { s1 with pt := [1] }
      match build4rest s.tid s.imei rnB with
      | some recB =>
          ({ s2 with service := some (service0 ++ recB), rn := s.rn + 1 }, none)
      | none => (s2, some PyErr.overflowError)
    else
      (s1, some PyErr.unboundLocalError)

/-- The `bytes` property (lines 225-244): the 10 fixed-plus-variable
transport-header bytes; `none` models the `OverflowError` from
`self._pid.to_bytes(2, 'little')`. -/
def packet_header (fdl : List Nat) (pid : Nat) (pt : List Nat) : Option (List Nat) :=
  match to_bytes_le 2 pid with
  | none => none
  | some pidB => some ([1, 0, 0, 0x0B, 0] ++ fdl ++ pidB ++ pt)

/-- `EGTStrack.new_message` (lines 207-219).  `none` models the
`TypeError` raised on an empty (`None`) buffer, and any
`OverflowError` from the length, packet-id or checksum conversions. -/
def new_message (s : EGTStrack) : Option (List Nat × EGTStrack) :=
  match s.service with
  | none => none
  | some svc => do
    let sfrcs ← to_bytes_le 2 (data_crc svc)
    let fdl ← to_bytes_le 2 svc.length
    let hdr ← packet_header fdl s.rn s.pt
    let hcs ← to_bytes_le 1 (header_crc hdr)
    pure (hdr ++ hcs ++ svc ++ sfrcs, { s with pid := s.rn, service := none })

/-- The object state built by `__init__` (lines 96-105) just before its
`self.add_service(1)` call: `_pid = 1`, `_rn = _pid`, `_pt = b'\x01'`,
`_service = None`. -/
def init_state (deviceid : Nat) (imei : List Nat) : EGTStrack :=
  { tid := deviceid, imei := imei, pt := [1], service := none, pid := 1, rn := 1 }

/-- `EGTStrack.__init__` (lines 96-106): build the initial state and
run the implicit `self.add_service(1)`; the type-16 keyword arguments
are unread in branch 1 and passed as zeros. -/
def EGTStrack.init (deviceid : Nat) (imei : List Nat) (tm : Nat) :
    EGTStrack × Option PyErr :=
  add_service (init_state deviceid imei) 1 tm 0 0 0 0

/-- The type-1 body bytes (lines 128-134): object id, `0x9E`, IMEI,
IMSI placeholder, country, MSISDN placeholder. -/
def mservice1 (tid : Nat) (imei : List Nat) : List Nat :=
  leBytes 4 tid ++ [0x9E] ++ imei ++ imsiPlaceholder ++ countryRus ++ msisdnPlaceholder

/-- The full framed type-1 record `headService + _service` appended to
the buffer by a successful `add_service(1)` call. -/
def record1 (tid : Nat) (imei : List Nat) (rn tm : Nat) : List Nat :=
  leBytes 2 ([1] ++ leBytes 2 (mservice1 tid imei).length ++ mservice1 tid imei).length
    ++ leBytes 2 rn ++ [5] ++ leBytes 4 tid ++ leBytes 4 tm ++ [1] ++ [1]
    ++ ([1] ++ leBytes 2 (mservice1 tid imei).length ++ mservice1 tid imei)

/-- The type-16 body bytes (lines 171-182): second timestamp, latitude,
longitude, flags, speed, direction, odometer, digital inputs, source. -/
def mservice16 (ntm : Nat) (long lat speed : ℚ) : List Nat :=
  leBytes 4 ntm ++ leBytes 4 (coord_lat lat).toNat ++ leBytes 4 (coord_long long).toNat
    ++ leBytes 1 (llflags_calc long lat) ++ leBytes 2 (pytrunc (speed * 10)).toNat
    ++ [0] ++ [176, 4, 0] ++ [1] ++ [0]

/-- The full framed type-16 record appended by a successful
`add_service(16, ...)` call. -/
def record16 (tid rn tm ntm : Nat) (long lat speed : ℚ) : List Nat :=
  leBytes 2 ([16] ++ leBytes 2 (mservice16 ntm long lat speed).length
      ++ mservice16 ntm long lat speed).length
    ++ leBytes 2 rn ++ [5] ++ leBytes 4 tid ++ leBytes 4 tm ++ [2] ++ [2]
    ++ ([16] ++ leBytes 2 (mservice16 ntm long lat speed).length
      ++ mservice16 ntm long lat speed)

/-- Record numbers `a, a+1, ..., a+n-1`: strictly increasing by one
from `a`, with no gaps or repeats. -/
def numsFrom : Nat → Nat → List Nat
  | _, 0 => []
  | a, n + 1 => a :: numsFrom (a + 1) n

/-- One `add_service` request: the positional `record_types`, the two
clock readings, and the type-16 keyword arguments. -/
structure Req where
  rt : Nat
  tm : Nat
  ntm : Nat
  long : ℚ
  lat : ℚ
  speed : ℚ
deriving DecidableEq

/-- Run a sequence of `add_service` calls, recording the record number
(`self._rn` at call time) assigned to each; `none` as soon as one call
raises. -/
def appendAll : EGTStrack → List Req → Option (EGTStrack × List Nat)
  | s, [] => some (s, [])
  | s, r :: rs =>
    match add_service s r.rt r.tm r.ntm r.long r.lat r.speed with
    | (s', none) =>
      match appendAll s' rs with
      | some (s'', nums) => some (s'', s.rn :: nums)
      | none => none
    | (_, some _) => none

/-- UTF-8 bytes of the demo IMEI string 865811111111111. -/
def imeiDemo : List Nat := [56, 54, 53, 56] ++ List.replicate 11 49

/-- Session state with a non-empty buffer whose record counter has
outgrown 16 bits (reached after 65535 successful appends). -/
def cexC1state : EGTStrack :=
  { tid := 1, imei := [], pt := [1], service := some [0], pid := 1, rn := 65536 }

/-- A small concrete session state with two buffered bytes. -/
def wC1state : EGTStrack :=
  { tid := 7, imei := [], pt := [1], service := some [9, 8], pid := 1, rn := 3 }

/-- Session state right after a finalize: the buffer is the reset
(`None`) state. -/
def cexC4state : EGTStrack :=
  { tid := 1, imei := [], pt := [1], service := none, pid := 1, rn := 1 }

/-- A concrete session state with one buffered byte. -/
def wC4state : EGTStrack :=
  { tid := 2, imei := [], pt := [1], service := some [3], pid := 1, rn := 5 }

/-- A concrete session state with an empty (reset) buffer. -/
def wC5empty : EGTStrack :=
  { tid := 1, imei := [], pt := [1], service := none, pid := 1, rn := 1 }

/-- A concrete session state with one buffered byte. -/
def wC5full : EGTStrack :=
  { tid := 1, imei := [], pt := [1], service := some [1], pid := 1, rn := 2 }

/-- A concrete session state for the record-numbering witness. -/
def wC3state : EGTStrack :=
  { tid := 4, imei := [], pt := [1], service := some [], pid := 1, rn := 5 }

/-- Two type-4 append requests. -/
def wC3reqs : List Req := [⟨4, 0, 0, 0, 0, 0⟩, ⟨4, 0, 0, 0, 0, 0⟩]

/-- Session state whose record counter sits at the 16-bit maximum. -/
def cexC8state : EGTStrack :=
  { tid := 1, imei := [], pt := [1], service := some [], pid := 1, rn := 65535 }

/-- A concrete session state with a small record counter. -/
def wC8small : EGTStrack :=
  { tid := 3, imei := [], pt := [1], service := some [], pid := 1, rn := 9 }

/-- Session state whose record counter no longer fits in 16 bits. -/
def wC8big : EGTStrack :=
  { tid := 3, imei := [], pt := [1], service := some [], pid := 1, rn := 70000 }

/-- The state left behind by a successful finalize on `wC5full`. -/
def wC5done : EGTStrack :=
  { tid := 1, imei := [], pt := [1], service := none, pid := 2, rn := 2 }

/-- The packet emitted by a finalize on `wC5full`. -/
def wC5out : List Nat :=
  ([1, 0, 0, 0x0B, 0] ++ leBytes 2 1 ++ leBytes 2 2 ++ [1])
    ++ leBytes 1 (header_crc ([1, 0, 0, 0x0B, 0] ++ leBytes 2 1 ++ leBytes 2 2 ++ [1]))
    ++ [1] ++ leBytes 2 (data_crc [1])

/-- The packet emitted by the end-to-end scenario: construction
(implicit type-1 record), one type-16 append with the demo coordinates,
then finalize; `t0`, `t1`, `t2` are the three clock readings. -/
def packetC7 (imei : List Nat) (t0 t1 t2 : Nat) : List Nat :=
  ([1, 0, 0, 0x0B, 0]
      ++ leBytes 2 (record1 111111111 imei 1 t0
        ++ record16 111111111 2 t1 t2 (40055205 / 1000000) (47423826 / 1000000) 90).length
      ++ leBytes 2 3 ++ [1])
    ++ leBytes 1 (header_crc ([1, 0, 0, 0x0B, 0]
      ++ leBytes 2 (record1 111111111 imei 1 t0
        ++ record16 111111111 2 t1 t2 (40055205 / 1000000) (47423826 / 1000000) 90).length
      ++ leBytes 2 3 ++ [1]))
    ++ (record1 111111111 imei 1 t0
      ++ record16 111111111 2 t1 t2 (40055205 / 1000000) (47423826 / 1000000) 90)
    ++ leBytes 2 (data_crc (record1 111111111 imei 1 t0
      ++ record16 111111111 2 t1 t2 (40055205 / 1000000) (47423826 / 1000000) 90))

theorem getD_le_of_forall {l : List Nat} {m d : Nat} (h : ∀ x ∈ l, x ≤ m) (hd : d ≤ m) :
    ∀ i, l.getD i d ≤ m := by
  intro i
  induction l generalizing i with
  | nil => simpa [List.getD] using hd
  | cons a t ih =>
    cases i with
    | zero =>
        rw [List.getD_cons_zero]
        exact h a (List.mem_cons_self a t)
    | succ j =>
        rw [List.getD_cons_succ]
        exact ih (fun x hx => h x (List.mem_cons_of_mem a hx)) j

set_option maxRecDepth 8192 in
theorem crc8_table_le : ∀ x ∈ CRC8_TABLE, x ≤ 255 := by decide

set_option maxRecDepth 8192 in
theorem crc16_table_le : ∀ x ∈ CRC16_TABLE, x ≤ 65535 := by decide

theorem header_crc_go_le (l : List Nat) : ∀ crc, crc ≤ 255 → header_crc_go crc l ≤ 255 := by
  induction l with
  | nil => intro crc h; exact h
  | cons b t ih =>
      intro crc _
      exact ih _ (getD_le_of_forall crc8_table_le (by norm_num) _)

theorem header_crc_le (l : List Nat) : header_crc l ≤ 255 :=
  header_crc_go_le l 0xFF (by norm_num)

theorem data_crc_go_le (l : List Nat) : ∀ crc, crc ≤ 65535 → data_crc_go crc l ≤ 65535 := by
  induction l with
  | nil => intro crc h; exact h
  | cons b t ih =>
      intro crc _
      apply ih
      have h1 : (crc <<< 8) % 0x10000 < 0x10000 := Nat.mod_lt _ (by norm_num)
      have h2 : CRC16_TABLE.getD ((crc >>> 8) ^^^ b) 0 ≤ 65535 :=
        getD_le_of_forall crc16_table_le (by norm_num) _
      have hpow : (2 : Nat) ^ 16 = 65536 := by norm_num
      have h3 : ((crc <<< 8) % 0x10000) ^^^ CRC16_TABLE.getD ((crc >>> 8) ^^^ b) 0 < 2 ^ 16 :=
        Nat.xor_lt_two_pow (by omega) (by omega)
      omega

theorem data_crc_le (l : List Nat) : data_crc l ≤ 65535 :=
  data_crc_go_le l 0xFFFF (by norm_num)

theorem to_bytes_le_eq {w n : Nat} (h : n < 2 ^ (8 * w)) :
    to_bytes_le w n = some (leBytes w n) := by
  simp [to_bytes_le, h]

theorem to_bytes_le_int_eq {w : Nat} {n : Int} (h0 : 0 ≤ n) (h : n < 2 ^ (8 * w)) :
    to_bytes_le_int w n = some (leBytes w n.toNat) := by
  simp [to_bytes_le_int, h0, h]

theorem leBytes_length (w : Nat) : ∀ n, (leBytes w n).length = w := by
  induction w with
  | zero => intro n; rfl
  | succ v ih => intro n; simp [leBytes, ih]

theorem header_crc_go_foldl (l : List Nat) :
    ∀ crc, header_crc_go crc l = l.foldl (fun c b => CRC8_TABLE.getD (c ^^^ b) 0) crc := by
  induction l with
  | nil => intro crc; rfl
  | cons b t ih => intro crc; simp [header_crc_go, List.foldl_cons, ih]

theorem data_crc_go_foldl (l : List Nat) :
    ∀ crc, data_crc_go crc l =
      l.foldl (fun c b => ((c <<< 8) % 0x10000) ^^^ CRC16_TABLE.getD ((c >>> 8) ^^^ b) 0) crc := by
  induction l with
  | nil => intro crc; rfl
  | cons b t ih => intro crc; simp [data_crc_go, List.foldl_cons, ih]

theorem new_message_eq (s : EGTStrack) (svc : List Nat) (h : s.service = some svc)
    (hlen : svc.length < 65536) (hrn : s.rn < 65536) :
    new_message s = some
      (([1, 0, 0, 0x0B, 0] ++ leBytes 2 svc.length ++ leBytes 2 s.rn ++ s.pt)
          ++ leBytes 1 (header_crc
              ([1, 0, 0, 0x0B, 0] ++ leBytes 2 svc.length ++ leBytes 2 s.rn ++ s.pt))
          ++ svc ++ leBytes 2 (data_crc svc),
        { s with pid := s.rn, service := none }) := by
  have hd : data_crc svc < 2 ^ (8 * 2) := by
    have := data_crc_le svc; norm_num; omega
  have hl : svc.length < 2 ^ (8 * 2) := by norm_num; omega
  have hr : s.rn < 2 ^ (8 * 2) := by norm_num; omega
  have hh : header_crc (1 :: 0 :: 0 :: 11 :: 0 ::
      (leBytes 2 svc.length ++ (leBytes 2 s.rn ++ s.pt))) < 2 ^ (8 * 1) := by
    have := header_crc_le (1 :: 0 :: 0 :: 11 :: 0 ::
      (leBytes 2 svc.length ++ (leBytes 2 s.rn ++ s.pt)))
    norm_num; omega
  simp [new_message, h, packet_header, to_bytes_le_eq hd, to_bytes_le_eq hl,
    to_bytes_le_eq hr, to_bytes_le_eq hh, List.append_assoc]

theorem new_message_of_none (s : EGTStrack) (h : s.service = none) : new_message s = none := by
  simp [new_message, h]

theorem new_message_success {s s' : EGTStrack} {out : List Nat}
    (h : new_message s = some (out, s')) :
    s'.service = none ∧ s'.rn = s.rn := by
  rcases hs : s.service with _ | svc
  · simp [new_message, hs] at h
  · simp only [new_message, hs, Option.bind_eq_bind, Option.bind_eq_some, Option.pure_def,
      Option.some.injEq, Prod.mk.injEq] at h
    obtain ⟨a, ha, b, hb, c, hc, d, hd, hout, hst⟩ := h
    rw [← hst]
    exact ⟨rfl, rfl⟩

theorem add_service_success_rn {s s' : EGTStrack} {rt tm ntm : Nat} {long lat speed : ℚ}
    (h : add_service s rt tm ntm long lat speed = (s', none)) :
    s'.rn = s.rn + 1 := by
  unfold add_service at h
  repeat' split at h
  all_goals simp_all
  all_goals rw [← h]

theorem add_service_rn_overflow (s : EGTStrack) (rt tm ntm : Nat) (long lat speed : ℚ)
    (h : 65536 ≤ s.rn) :
    add_service s rt tm ntm long lat speed =
      ({ s with service := some (s.service.getD []) }, some PyErr.overflowError) := by
  have hb : to_bytes_le 2 s.rn = none := by
    simp only [to_bytes_le]
    rw [if_neg]
    norm_num
    omega
  simp [add_service, hb]

theorem add_service_unsupported (s : EGTStrack) (rt tm ntm : Nat) (long lat speed : ℚ)
    (h1 : rt ≠ 1) (h2 : rt ≠ 2) (h16 : rt ≠ 16) (h4 : rt ≠ 4) (hrn : s.rn < 65536) :
    add_service s rt tm ntm long lat speed =
      ({ s with service := some (s.service.getD []) }, some PyErr.unboundLocalError) := by
  have hr : s.rn < 2 ^ (8 * 2) := by norm_num; omega
  simp [add_service, to_bytes_le_eq hr, h1, h2, h16, h4]

theorem lt_pow8 {n : Nat} (h : n < 256) : n < 2 ^ (8 * 1) := by norm_num; omega

theorem lt_pow16 {n : Nat} (h : n < 65536) : n < 2 ^ (8 * 2) := by norm_num; omega

theorem lt_pow32 {n : Nat} (h : n < 4294967296) : n < 2 ^ (8 * 4) := by norm_num; omega

theorem build1rest_eq (oid tmB rnB imei : List Nat)
    (h1 : (oid ++ [0x9E] ++ imei ++ imsiPlaceholder ++ countryRus ++ msisdnPlaceholder).length
        < 2 ^ (8 * 2))
    (h2 : ([1] ++ leBytes 2 (oid ++ [0x9E] ++ imei ++ imsiPlaceholder ++ countryRus
          ++ msisdnPlaceholder).length
        ++ (oid ++ [0x9E] ++ imei ++ imsiPlaceholder ++ countryRus ++ msisdnPlaceholder)).length
        < 2 ^ (8 * 2)) :
    build1rest oid tmB rnB imei = some (
      leBytes 2 ([1] ++ leBytes 2 (oid ++ [0x9E] ++ imei ++ imsiPlaceholder ++ countryRus
            ++ msisdnPlaceholder).length
          ++ (oid ++ [0x9E] ++ imei ++ imsiPlaceholder ++ countryRus ++ msisdnPlaceholder)).length
        ++ rnB ++ [5] ++ oid ++ tmB ++ [1] ++ [1]
        ++ ([1] ++ leBytes 2 (oid ++ [0x9E] ++ imei ++ imsiPlaceholder ++ countryRus
            ++ msisdnPlaceholder).length
          ++ (oid ++ [0x9E] ++ imei ++ imsiPlaceholder ++ countryRus ++ msisdnPlaceholder))) := by
  simp only [build1rest, to_bytes_le_eq h1, to_bytes_le_eq h2]

theorem add_service1_eq (s : EGTStrack) (tm ntm : Nat) (long lat speed : ℚ)
    (hrn : s.rn < 65536) (htid : s.tid < 4294967296) (htm : tm < 4294967296)
    (him : s.imei.length + 42 < 65536) :
    add_service s 1 tm ntm long lat speed =
      ({ s with pt := [1],
                service := some (s.service.getD [] ++ record1 s.tid s.imei s.rn tm),
                rn := s.rn + 1 }, none) := by
  have hm : (leBytes 4 s.tid ++ [0x9E] ++ s.imei ++ imsiPlaceholder ++ countryRus
      ++ msisdnPlaceholder).length = 39 + s.imei.length := by
    simp [leBytes_length, imsiPlaceholder, countryRus, msisdnPlaceholder]
    omega
  have h1 : (leBytes 4 s.tid ++ [0x9E] ++ s.imei ++ imsiPlaceholder ++ countryRus
      ++ msisdnPlaceholder).length < 2 ^ (8 * 2) := by
    rw [hm]; exact lt_pow16 (by omega)
  have h2 : ([1] ++ leBytes 2 (leBytes 4 s.tid ++ [0x9E] ++ s.imei ++ imsiPlaceholder
        ++ countryRus ++ msisdnPlaceholder).length
      ++ (leBytes 4 s.tid ++ [0x9E] ++ s.imei ++ imsiPlaceholder ++ countryRus
        ++ msisdnPlaceholder)).length < 2 ^ (8 * 2) := by
    simp only [List.length_append, leBytes_length, List.length_cons, List.length_nil, hm]
    exact lt_pow16 (by omega)
  simp only [add_service, to_bytes_le_eq (lt_pow16 hrn), to_bytes_le_eq (lt_pow32 htid),
    to_bytes_le_eq (lt_pow32 htm), build1rest_eq _ _ _ _ h1 h2, record1, mservice1, if_true]

theorem lt_pow32i {n : Int} (h : n < 4294967296) : n < 2 ^ (8 * 4) := by norm_num; omega

theorem lt_pow16i {n : Int} (h : n < 65536) : n < 2 ^ (8 * 2) := by norm_num; omega

theorem llflags_le (long lat : ℚ) : llflags_calc long lat ≤ 7 := by
  simp only [llflags_calc]
  split <;> split <;> decide

theorem pytrunc_nonneg {q : ℚ} (h : 0 ≤ q) : 0 ≤ pytrunc q :=
  Int.tdiv_nonneg (Rat.num_nonneg.mpr h) (Int.natCast_nonneg q.den)

theorem coord_long_nonneg (long : ℚ) : 0 ≤ coord_long long :=
  pytrunc_nonneg (by positivity)

theorem coord_lat_nonneg (lat : ℚ) : 0 ≤ coord_lat lat :=
  pytrunc_nonneg (by positivity)

set_option maxHeartbeats 1000000 in
theorem build16rest_eq (oid tmB rnB : List Nat) (ntm : Nat) (long lat speed : ℚ)
    (hlong : coord_long long < 2 ^ (8 * 4)) (hlat : coord_lat lat < 2 ^ (8 * 4))
    (hntm : ntm < 2 ^ (8 * 4)) (hspd0 : 0 ≤ pytrunc (speed * 10))
    (hspd : pytrunc (speed * 10) < 2 ^ (8 * 2)) :
    build16rest oid tmB rnB ntm long lat speed = some (
      leBytes 2 ([16] ++ leBytes 2 (mservice16 ntm long lat speed).length
          ++ mservice16 ntm long lat speed).length
        ++ rnB ++ [5] ++ oid ++ tmB ++ [2] ++ [2]
        ++ ([16] ++ leBytes 2 (mservice16 ntm long lat speed).length
          ++ mservice16 ntm long lat speed)) := by
  have hfl : llflags_calc long lat < 2 ^ (8 * 1) :=
    lt_pow8 (by have := llflags_le long lat; omega)
  have hsrl : (leBytes 4 ntm ++ leBytes 4 (coord_lat lat).toNat
      ++ leBytes 4 (coord_long long).toNat ++ leBytes 1 (llflags_calc long lat)
      ++ leBytes 2 (pytrunc (speed * 10)).toNat
      ++ [0] ++ [176, 4, 0] ++ [1] ++ [0]).length < 2 ^ (8 * 2) := by
    simp only [List.length_append, leBytes_length, List.length_cons, List.length_nil]
    norm_num
  have hserv : ([16] ++ leBytes 2 (leBytes 4 ntm ++ leBytes 4 (coord_lat lat).toNat
        ++ leBytes 4 (coord_long long).toNat ++ leBytes 1 (llflags_calc long lat)
        ++ leBytes 2 (pytrunc (speed * 10)).toNat
        ++ [0] ++ [176, 4, 0] ++ [1] ++ [0]).length
      ++ (leBytes 4 ntm ++ leBytes 4 (coord_lat lat).toNat
        ++ leBytes 4 (coord_long long).toNat ++ leBytes 1 (llflags_calc long lat)
        ++ leBytes 2 (pytrunc (speed * 10)).toNat
        ++ [0] ++ [176, 4, 0] ++ [1] ++ [0])).length < 2 ^ (8 * 2) := by
    simp only [List.length_append, leBytes_length, List.length_cons, List.length_nil]
    norm_num
  simp only [build16rest, to_bytes_le_int_eq (coord_long_nonneg long) hlong,
    to_bytes_le_int_eq (coord_lat_nonneg lat) hlat, to_bytes_le_eq hntm,
    to_bytes_le_eq hfl, to_bytes_le_int_eq hspd0 hspd, to_bytes_le_eq hsrl,
    to_bytes_le_eq hserv, mservice16]

theorem add_service16_eq (s : EGTStrack) (tm ntm : Nat) (long lat speed : ℚ)
    (hrn : s.rn < 65536) (htid : s.tid < 4294967296) (htm : tm < 4294967296)
    (hntm : ntm < 4294967296) (hlong : coord_long long < 4294967296)
    (hlat : coord_lat lat < 4294967296) (hspd0 : 0 ≤ pytrunc (speed * 10))
    (hspd : pytrunc (speed * 10) < 65536) :
    add_service s 16 tm ntm long lat speed =
      ({ s with pt := [1],
                service := some (s.service.getD []
                  ++ record16 s.tid s.rn tm ntm long lat speed),
                rn := s.rn + 1 }, none) := by
  simp only [add_service, to_bytes_le_eq (lt_pow16 hrn), to_bytes_le_eq (lt_pow32 htid),
    to_bytes_le_eq (lt_pow32 htm),
    build16rest_eq _ _ _ ntm long lat speed (lt_pow32i hlong) (lt_pow32i hlat)
      (lt_pow32 hntm) hspd0 (lt_pow16i hspd),
    record16, if_true, if_false]
  norm_num

theorem leBytes_one (n : Nat) : leBytes 1 n = [n % 256] := rfl

/-- C2: for every byte sequence, `data_crc` equals the left fold with
initial value 0xFFFF and step `((crc <<< 8) % 0x10000) ^^^
CRC16_TABLE[(crc >>> 8) ^^^ byte]`, and `header_crc` equals the left
fold with initial value 0xFF and step `CRC8_TABLE[crc ^^^ byte]`; both
are total functions, and each returns its initial value unchanged on
the empty byte sequence. -/
theorem claim_C2 (b : List Nat) :
    data_crc b = b.foldl
      (fun crc byte => ((crc <<< 8) % 0x10000)
        ^^^ CRC16_TABLE.getD ((crc >>> 8) ^^^ byte) 0) 0xFFFF
  ∧ header_crc b = b.foldl (fun crc byte => CRC8_TABLE.getD (crc ^^^ byte) 0) 0xFF
  ∧ data_crc [] = 0xFFFF
  ∧ header_crc [] = 0xFF :=
  ⟨data_crc_go_foldl b 0xFFFF, header_crc_go_foldl b 0xFF, rfl, rfl⟩

/-- C10: for every byte sequence, `header_crc` is at most 255 and
`data_crc` at most 65535, so the 1-byte and 2-byte little-endian
conversions of the checksums inside `new_message` always succeed. -/
theorem claim_C10 (b : List Nat) :
    header_crc b ≤ 255 ∧ data_crc b ≤ 65535
  ∧ to_bytes_le 1 (header_crc b) = some (leBytes 1 (header_crc b))
  ∧ to_bytes_le 2 (data_crc b) = some (leBytes 2 (data_crc b)) :=
  ⟨header_crc_le b, data_crc_le b,
   to_bytes_le_eq (lt_pow8 (by have := header_crc_le b; omega)),
   to_bytes_le_eq (lt_pow16 (by have := data_crc_le b; omega))⟩

/-- C1 counterexample: a session state with a non-empty buffer (one
pending byte) whose record counter has reached 65536 — as it does after
65535 successful appends — makes `finalize` raise instead of emitting a
packet, so the claim fails as universally stated. -/
theorem claim_C1_cex :
    cexC1state.service = some [0] ∧ new_message cexC1state = none := by
  constructor
  · rfl
  · decide

/-- C1 amended: for every session state whose buffer holds a non-empty
byte sequence that fits the 16-bit length field, whose record counter
fits 16 bits, and whose packet-type byte is the constant 0x01 the code
maintains, `finalize` emits the 10 header bytes (protocol version 0x01,
security key id 0x00, flags 0x00, header length 0x0B, header encoding
0x00, 2-byte frame data length equal to the exact record byte length,
2-byte packet id, packet type 0x01), then the CRC-8 of those 10 bytes,
then the record bytes, then the 2-byte little-endian CRC-16 of the
record bytes; without the two 16-bit provisos finalize raises instead. -/
theorem claim_C1 (s : EGTStrack) (svc : List Nat) (h : s.service = some svc)
    (hne : svc ≠ []) (hpt : s.pt = [1]) (hlen : svc.length < 65536) (hrn : s.rn < 65536) :
    new_message s = some
      (([1, 0, 0, 0x0B, 0] ++ leBytes 2 svc.length ++ leBytes 2 s.rn ++ [1])
          ++ [header_crc ([1, 0, 0, 0x0B, 0] ++ leBytes 2 svc.length ++ leBytes 2 s.rn ++ [1])]
          ++ svc ++ leBytes 2 (data_crc svc),
        { s with pid := s.rn, service := none })
    ∧ ([1, 0, 0, 0x0B, 0] ++ leBytes 2 svc.length ++ leBytes 2 s.rn ++ [1]).length = 10 := by
  have hb := new_message_eq s svc h hlen hrn
  rw [hpt] at hb
  have hcrc : header_crc ([1, 0, 0, 0x0B, 0] ++ leBytes 2 svc.length ++ leBytes 2 s.rn ++ [1])
      < 256 := by
    have := header_crc_le ([1, 0, 0, 0x0B, 0] ++ leBytes 2 svc.length ++ leBytes 2 s.rn ++ [1])
    omega
  constructor
  · rw [hb, leBytes_one, Nat.mod_eq_of_lt hcrc, hpt]
  · simp [leBytes_length]

/-- C1 witness: the amended statement evaluated at a concrete state
with buffer bytes `[9, 8]` and record counter 3. -/
theorem claim_C1_witness :
    new_message wC1state = some
      (([1, 0, 0, 0x0B, 0] ++ leBytes 2 ([9, 8] : List Nat).length ++ leBytes 2 wC1state.rn ++ [1])
          ++ [header_crc ([1, 0, 0, 0x0B, 0] ++ leBytes 2 ([9, 8] : List Nat).length
              ++ leBytes 2 wC1state.rn ++ [1])]
          ++ [9, 8] ++ leBytes 2 (data_crc [9, 8]),
        { wC1state with pid := wC1state.rn, service := none })
    ∧ ([1, 0, 0, 0x0B, 0] ++ leBytes 2 ([9, 8] : List Nat).length
        ++ leBytes 2 wC1state.rn ++ [1]).length = 10 :=
  claim_C1 wC1state [9, 8] rfl (by decide) rfl (by decide) (by decide)

/-- C5: finalize on an empty (reset) buffer fails; a successful
finalize resets the buffer to empty and leaves the record counter
untouched, so a second finalize with no intervening append fails. -/
theorem claim_C5 :
    (∀ s : EGTStrack, s.service = none → new_message s = none)
  ∧ (∀ (s s' : EGTStrack) (out : List Nat), new_message s = some (out, s') →
      s'.service = none ∧ s'.rn = s.rn ∧ new_message s' = none) := by
  refine ⟨fun s h => new_message_of_none s h, fun s s' out h => ?_⟩
  obtain ⟨h1, h2⟩ := new_message_success h
  exact ⟨h1, h2, new_message_of_none s' h1⟩

/-- C5 witness: finalize fails on a concrete reset state, and after a
concrete successful finalize the buffer is reset, the counter is kept,
and a second finalize fails. -/
theorem claim_C5_witness :
    new_message wC5empty = none
  ∧ (wC5done.service = none ∧ wC5done.rn = wC5full.rn ∧ new_message wC5done = none) :=
  ⟨claim_C5.1 wC5empty rfl, claim_C5.2 wC5full wC5done wC5out (by decide)⟩

theorem appendAll_spec (reqs : List Req) : ∀ (s s' : EGTStrack) (nums : List Nat),
    appendAll s reqs = some (s', nums) →
    nums = numsFrom s.rn reqs.length ∧ s'.rn = s.rn + reqs.length := by
  induction reqs with
  | nil =>
      intro s s' nums h
      simp only [appendAll, Option.some.injEq, Prod.mk.injEq] at h
      obtain ⟨h1, h2⟩ := h
      subst h1
      subst h2
      exact ⟨rfl, rfl⟩
  | cons r rs ih =>
      intro s s' nums h
      simp only [appendAll] at h
      rcases ha : add_service s r.rt r.tm r.ntm r.long r.lat r.speed with ⟨s1, err⟩
      rw [ha] at h
      cases err with
      | some e => simp at h
      | none =>
          dsimp only at h
          rcases hb : appendAll s1 rs with _ | p
          · rw [hb] at h; simp at h
          · rcases p with ⟨s2, nums2⟩
            rw [hb] at h
            simp only [Option.some.injEq, Prod.mk.injEq] at h
            obtain ⟨h1, h2⟩ := h
            have hrn1 : s1.rn = s.rn + 1 := add_service_success_rn ha
            obtain ⟨hn, hrr⟩ := ih s1 s2 nums2 hb
            subst h1
            constructor
            · rw [← h2, hn, hrn1]
              rfl
            · rw [hrr, hrn1]
              simp
              omega

/-- C3: a sequence of successful appends assigns record numbers that
increase strictly by one from the counter's pre-call value, with no
gaps or repeats (the list is `numsFrom`), leaves the counter advanced
by the number of appends, and finalize never resets the counter. -/
theorem claim_C3 (s : EGTStrack) (reqs : List Req) (h : (appendAll s reqs).isSome) :
    (appendAll s reqs).map (fun p => p.2) = some (numsFrom s.rn reqs.length)
  ∧ (appendAll s reqs).map (fun p => p.1.rn) = some (s.rn + reqs.length)
  ∧ ∀ (t t' : EGTStrack) (out : List Nat), new_message t = some (out, t') → t'.rn = t.rn := by
  rcases hA : appendAll s reqs with _ | p
  · rw [hA] at h; simp at h
  · rcases p with ⟨s', nums⟩
    obtain ⟨h1, h2⟩ := appendAll_spec reqs s s' nums hA
    refine ⟨?_, ?_, fun t t' out ht => (new_message_success ht).2⟩
    · simp [h1]
    · simp [h2]

/-- C3 witness: two successful type-4 appends on a session whose
counter is at 5 receive record numbers 5 and 6 and leave the counter
at 7. -/
theorem claim_C3_witness :
    (appendAll wC3state wC3reqs).map (fun p => p.2) = some (numsFrom wC3state.rn wC3reqs.length)
  ∧ (appendAll wC3state wC3reqs).map (fun p => p.1.rn) = some (wC3state.rn + wC3reqs.length) :=
  ⟨(claim_C3 wC3state wC3reqs (by decide)).1, (claim_C3 wC3state wC3reqs (by decide)).2.1⟩

/-- C4 counterexample: on a session whose buffer is in the reset
(`None`) state — the state every finalize leaves behind — appending an
unsupported record type 99 raises, but it also changes the buffer from
the reset state to an initialized empty buffer, so the buffer is not
left unchanged as claimed. -/
theorem claim_C4_cex :
    (add_service cexC4state 99 0 0 0 0 0).2 ≠ none
  ∧ (add_service cexC4state 99 0 0 0 0 0).1.service ≠ cexC4state.service := by decide

/-- C4 amended: appending a record type outside {1, 2, 4, 16} fails
(with the `UnboundLocalError` the dispatch slip produces), assigns no
record bytes and does not advance the counter; the only state change is
that a reset (`None`) buffer is initialized to an empty byte buffer —
so a session in the reset state does not come out of the failed call
fully unchanged. -/
theorem claim_C4 (s : EGTStrack) (rt tm ntm : Nat) (long lat speed : ℚ)
    (h1 : rt ≠ 1) (h2 : rt ≠ 2) (h16 : rt ≠ 16) (h4 : rt ≠ 4) (hrn : s.rn < 65536) :
    add_service s rt tm ntm long lat speed =
      ({ s with service := some (s.service.getD []) }, some PyErr.unboundLocalError) :=
  add_service_unsupported s rt tm ntm long lat speed h1 h2 h16 h4 hrn

/-- C4 witness: the amended statement at a concrete state with one
buffered byte and record type 99: the call fails and the state keeps
its bytes and counter. -/
theorem claim_C4_witness :
    add_service wC4state 99 0 0 0 0 0 =
      ({ wC4state with service := some (wC4state.service.getD []) },
        some PyErr.unboundLocalError) :=
  claim_C4 wC4state 99 0 0 0 0 0 (by decide) (by decide) (by decide) (by decide) (by decide)

/-- C8 counterexample: appending to a session whose counter is 65535
succeeds, but the counter then holds 65536 — not 0, so there is no
modulo-65536 wrap — and the very next append raises an overflow. -/
theorem claim_C8_cex :
    (add_service cexC8state 4 0 0 0 0 0).2 = none
  ∧ (add_service cexC8state 4 0 0 0 0 0).1.rn = 65536
  ∧ (add_service cexC8state 4 0 0 0 0 0).1.rn ≠ 0
  ∧ (add_service (add_service cexC8state 4 0 0 0 0 0).1 4 0 0 0 0 0).2
      = some PyErr.overflowError := by decide

/-- C8 amended: the record counter starts at 1, increments by exactly
one on every successful append with no modulo-65536 wrap, and once it
no longer fits 16 bits every further append fails with an overflow
because the record number cannot be encoded in 2 bytes. -/
theorem claim_C8 (s : EGTStrack) (rt tm ntm : Nat) (long lat speed : ℚ)
    (did : Nat) (imei : List Nat) :
    (init_state did imei).rn = 1
  ∧ ((add_service s rt tm ntm long lat speed).2 = none →
      (add_service s rt tm ntm long lat speed).1.rn = s.rn + 1)
  ∧ (65536 ≤ s.rn →
      (add_service s rt tm ntm long lat speed).2 = some PyErr.overflowError) := by
  refine ⟨rfl, fun h => ?_, fun h => ?_⟩
  · rcases he : add_service s rt tm ntm long lat speed with ⟨s1, err⟩
    cases err with
    | none => exact add_service_success_rn he
    | some e => rw [he] at h; simp at h
  · rw [add_service_rn_overflow s rt tm ntm long lat speed h]

/-- C8 witness: the amended statement at concrete states — a counter at
9 advances to 10 on a successful append, and a counter at 70000 makes
the append fail with an overflow. -/
theorem claim_C8_witness :
    (init_state 5 []).rn = 1
  ∧ (add_service wC8small 4 0 0 0 0 0).1.rn = wC8small.rn + 1
  ∧ (add_service wC8big 4 0 0 0 0 0).2 = some PyErr.overflowError :=
  ⟨(claim_C8 wC8small 4 0 0 0 0 0 5 []).1,
   (claim_C8 wC8small 4 0 0 0 0 0 5 []).2.1 (by decide),
   (claim_C8 wC8big 4 0 0 0 0 0 5 []).2.2 (by decide)⟩

theorem pytrunc_eq_floor {q : ℚ} (h : 0 ≤ q) : pytrunc q = ⌊q⌋ := by
  unfold pytrunc
  rw [Int.tdiv_eq_ediv (Rat.num_nonneg.mpr h) (Int.natCast_nonneg q.den), Rat.floor_def]

/-- C6 counterexample: at the spec's own example latitude 47.423826 the
code stores `trunc(abs(lat) / 90 * 0xFFFFFFFF)` = 2263153129, while
`round` of the same quantity is 2263153130, so the field does not equal
the claimed `round(...)`. -/
theorem claim_C6_cex :
    coord_lat (47423826 / 1000000) ≠
      round (|(47423826 : ℚ) / 1000000| / 90 * 0xFFFFFFFF) := by
  rw [show coord_lat (47423826 / 1000000)
        = ⌊|(47423826 : ℚ) / 1000000| / 90 * 0xFFFFFFFF⌋ from pytrunc_eq_floor (by positivity),
      round_eq, abs_of_nonneg (by norm_num : (0 : ℚ) ≤ 47423826 / 1000000)]
  norm_num

/-- C6 amended: the latitude and longitude fields are the
truncation (floor, the magnitudes being non-negative) of
`abs(degrees) / 90-or-180 * 0xFFFFFFFF` — not the rounding; the sign is
carried only in the flags byte, whose bit 0 is always set, bit 1 set
exactly when the longitude is negative, bit 2 exactly when the latitude
is negative; at the claim's longitude example 40.055205 truncation and
rounding happen to agree, so that instance holds as stated. -/
theorem claim_C6 (long lat : ℚ) :
    coord_lat lat = ⌊|lat| / 90 * 0xFFFFFFFF⌋
  ∧ coord_long long = ⌊|long| / 180 * 0xFFFFFFFF⌋
  ∧ llflags_calc long lat &&& 1 = 1
  ∧ (llflags_calc long lat &&& 2 = 2 ↔ long < 0)
  ∧ (llflags_calc long lat &&& 4 = 4 ↔ lat < 0)
  ∧ coord_long (40055205 / 1000000)
      = round ((40055205 : ℚ) / 1000000 / 180 * 0xFFFFFFFF) := by
  refine ⟨pytrunc_eq_floor (by positivity), pytrunc_eq_floor (by positivity), ?_, ?_, ?_, ?_⟩
  · by_cases h1 : long < 0 <;> by_cases h2 : lat < 0 <;>
      simp only [llflags_calc, h1, h2, if_true, if_false] <;> decide
  · by_cases h1 : long < 0 <;> by_cases h2 : lat < 0 <;>
      simp [llflags_calc, h1, h2] <;> decide
  · by_cases h1 : long < 0 <;> by_cases h2 : lat < 0 <;>
      simp [llflags_calc, h1, h2] <;> decide
  · rw [show coord_long (40055205 / 1000000)
        = ⌊|(40055205 : ℚ) / 1000000| / 180 * 0xFFFFFFFF⌋ from pytrunc_eq_floor (by positivity),
      round_eq, abs_of_nonneg (by norm_num : (0 : ℚ) ≤ 40055205 / 1000000)]
    norm_num

theorem record1_length (tid : Nat) (imei : List Nat) (rn tm : Nat) :
    (record1 tid imei rn tm).length = 57 + imei.length := by
  simp only [record1, mservice1, imsiPlaceholder, countryRus, msisdnPlaceholder,
    List.length_append, leBytes_length, List.length_cons, List.length_nil,
    List.length_replicate]
  omega

/-- C9: constructing a session appends one type-1 record as a side
effect: immediately afterwards the buffer holds exactly that non-empty
record, the record counter is 2, and finalize succeeds with no explicit
append, emitting a packet whose packet-id field bytes encode 2. -/
theorem claim_C9 (did tm : Nat) (imei : List Nat)
    (hdid : did < 4294967296) (htm : tm < 4294967296) (him : imei.length + 57 < 65536) :
    ∃ (s s' : EGTStrack),
      EGTStrack.init did imei tm = (s, none)
    ∧ s.service = some (record1 did imei 1 tm)
    ∧ record1 did imei 1 tm ≠ []
    ∧ s.rn = 2
    ∧ new_message s = some (
        ([1, 0, 0, 0x0B, 0] ++ leBytes 2 (record1 did imei 1 tm).length ++ leBytes 2 2 ++ [1])
          ++ leBytes 1 (header_crc ([1, 0, 0, 0x0B, 0]
              ++ leBytes 2 (record1 did imei 1 tm).length ++ leBytes 2 2 ++ [1]))
          ++ record1 did imei 1 tm ++ leBytes 2 (data_crc (record1 did imei 1 tm)), s')
    ∧ s'.pid = 2
    ∧ leBytes 2 2 = [2, 0] := by
  have hlen := record1_length did imei 1 tm
  refine ⟨{ tid := did, imei := imei, pt := [1],
            service := some (record1 did imei 1 tm), pid := 1, rn := 2 },
          { tid := did, imei := imei, pt := [1], service := none, pid := 2, rn := 2 },
          ?_, rfl, ?_, rfl, ?_, rfl, rfl⟩
  · exact add_service1_eq (init_state did imei) tm 0 0 0 0 (by norm_num [init_state])
      (by simpa [init_state] using hdid) htm (by simp [init_state]; omega)
  · intro hc
    have h0 := congrArg List.length hc
    rw [hlen] at h0
    simp at h0
  · exact new_message_eq
      { tid := did, imei := imei, pt := [1],
        service := some (record1 did imei 1 tm), pid := 1, rn := 2 }
      (record1 did imei 1 tm) rfl (by omega) (by norm_num)

/-- C9 witness: the statement at terminal id 111111111, the demo IMEI
and a concrete clock reading. -/
theorem claim_C9_witness :
    ∃ (s s' : EGTStrack),
      EGTStrack.init 111111111 imeiDemo 500000000 = (s, none)
    ∧ s.service = some (record1 111111111 imeiDemo 1 500000000)
    ∧ record1 111111111 imeiDemo 1 500000000 ≠ []
    ∧ s.rn = 2
    ∧ new_message s = some (
        ([1, 0, 0, 0x0B, 0] ++ leBytes 2 (record1 111111111 imeiDemo 1 500000000).length
            ++ leBytes 2 2 ++ [1])
          ++ leBytes 1 (header_crc ([1, 0, 0, 0x0B, 0]
              ++ leBytes 2 (record1 111111111 imeiDemo 1 500000000).length
              ++ leBytes 2 2 ++ [1]))
          ++ record1 111111111 imeiDemo 1 500000000
          ++ leBytes 2 (data_crc (record1 111111111 imeiDemo 1 500000000)), s')
    ∧ s'.pid = 2
    ∧ leBytes 2 2 = [2, 0] :=
  claim_C9 111111111 500000000 imeiDemo (by norm_num) (by norm_num) (by decide)

theorem add_service1_eq' (s : EGTStrack) (tid0 rn0 : Nat) (imei0 svc0 : List Nat)
    (tm ntm : Nat) (long lat speed : ℚ)
    (e1 : s.tid = tid0) (e2 : s.imei = imei0) (e3 : s.rn = rn0)
    (e4 : s.service.getD [] = svc0)
    (hrn : s.rn < 65536) (htid : s.tid < 4294967296) (htm : tm < 4294967296)
    (him : s.imei.length + 42 < 65536) :
    add_service s 1 tm ntm long lat speed =
      ({ s with pt := [1], service := some (svc0 ++ record1 tid0 imei0 rn0 tm),
                rn := rn0 + 1 }, none) := by
  subst e1
  subst e2
  subst e3
  subst e4
  exact add_service1_eq s tm ntm long lat speed hrn htid htm him

theorem add_service16_eq' (s : EGTStrack) (tid0 rn0 : Nat) (svc0 : List Nat)
    (tm ntm : Nat) (long lat speed : ℚ)
    (e1 : s.tid = tid0) (e3 : s.rn = rn0) (e4 : s.service.getD [] = svc0)
    (hrn : s.rn < 65536) (htid : s.tid < 4294967296) (htm : tm < 4294967296)
    (hntm : ntm < 4294967296) (hlong : coord_long long < 4294967296)
    (hlat : coord_lat lat < 4294967296) (hspd0 : 0 ≤ pytrunc (speed * 10))
    (hspd : pytrunc (speed * 10) < 65536) :
    add_service s 16 tm ntm long lat speed =
      ({ s with pt := [1], service := some (svc0 ++ record16 tid0 rn0 tm ntm long lat speed),
                rn := rn0 + 1 }, none) := by
  subst e1
  subst e3
  subst e4
  exact add_service16_eq s tm ntm long lat speed hrn htid htm hntm hlong hlat hspd0 hspd

theorem record16_length (tid rn tm ntm : Nat) (long lat speed : ℚ) :
    (record16 tid rn tm ntm long lat speed).length = 39 := by
  simp only [record16, mservice16, List.length_append, leBytes_length,
    List.length_cons, List.length_nil]

theorem coord_long_demo : coord_long (40055205 / 1000000) = 955754419 := by
  rw [show coord_long (40055205 / 1000000)
        = ⌊|(40055205 : ℚ) / 1000000| / 180 * 0xFFFFFFFF⌋ from pytrunc_eq_floor (by positivity),
      abs_of_nonneg (by norm_num : (0 : ℚ) ≤ 40055205 / 1000000)]
  norm_num

theorem coord_lat_demo : coord_lat (47423826 / 1000000) = 2263153129 := by
  rw [show coord_lat (47423826 / 1000000)
        = ⌊|(47423826 : ℚ) / 1000000| / 90 * 0xFFFFFFFF⌋ from pytrunc_eq_floor (by positivity),
      abs_of_nonneg (by norm_num : (0 : ℚ) ≤ 47423826 / 1000000)]
  norm_num

theorem spd_demo : pytrunc ((90 : ℚ) * 10) = 900 := by
  rw [show pytrunc ((90 : ℚ) * 10) = ⌊(90 : ℚ) * 10⌋ from pytrunc_eq_floor (by norm_num)]
  norm_num

/-- C7: a session built with terminal id 111111111 (whose construction
appends the one type-1 record), with one type-16 record appended at
longitude 40.055205, latitude 47.423826, speed 90, then finalized,
emits a packet whose byte 3 (header length) is 0x0B, whose trailing two
bytes are the little-endian CRC-16 of the two concatenated records, and
whose packet-id field encodes 3. -/
theorem claim_C7 (imei : List Nat) (t0 t1 t2 : Nat)
    (him : imei.length + 96 < 65536) (h0 : t0 < 4294967296) (h1 : t1 < 4294967296)
    (h2 : t2 < 4294967296) :
    ∃ (s1 s2 s3 : EGTStrack),
      EGTStrack.init 111111111 imei t0 = (s1, none)
    ∧ s1.service = some (record1 111111111 imei 1 t0)
    ∧ add_service s1 16 t1 t2 (40055205 / 1000000) (47423826 / 1000000) 90 = (s2, none)
    ∧ s2.service = some (record1 111111111 imei 1 t0
        ++ record16 111111111 2 t1 t2 (40055205 / 1000000) (47423826 / 1000000) 90)
    ∧ new_message s2 = some (packetC7 imei t0 t1 t2, s3)
    ∧ (packetC7 imei t0 t1 t2).get? 3 = some 0x0B
    ∧ s3.pid = 3
    ∧ leBytes 2 3 = [3, 0]
    ∧ (leBytes 2 (data_crc (record1 111111111 imei 1 t0
        ++ record16 111111111 2 t1 t2 (40055205 / 1000000) (47423826 / 1000000) 90))).length
        = 2 := by
  have hr1 := record1_length 111111111 imei 1 t0
  have hr16 := record16_length 111111111 2 t1 t2
    (40055205 / 1000000) (47423826 / 1000000) 90
  refine ⟨{ tid := 111111111, imei := imei, pt := [1],
            service := some (record1 111111111 imei 1 t0), pid := 1, rn := 2 },
          { tid := 111111111, imei := imei, pt := [1],
            service := some (record1 111111111 imei 1 t0
              ++ record16 111111111 2 t1 t2 (40055205 / 1000000) (47423826 / 1000000) 90),
            pid := 1, rn := 3 },
          { tid := 111111111, imei := imei, pt := [1], service := none, pid := 3, rn := 3 },
          ?_, rfl, ?_, rfl, ?_, rfl, rfl, rfl, leBytes_length 2 _⟩
  · exact add_service1_eq' (init_state 111111111 imei) 111111111 1 imei [] t0 0 0 0 0
      rfl rfl rfl rfl (by norm_num [init_state]) (by norm_num [init_state]) h0
      (by simp [init_state]; omega)
  · exact add_service16_eq' _ 111111111 2 (record1 111111111 imei 1 t0) t1 t2
      (40055205 / 1000000) (47423826 / 1000000) 90 rfl rfl rfl
      (by norm_num : (2 : Nat) < 65536) (by norm_num : (111111111 : Nat) < 4294967296) h1 h2
      (by rw [coord_long_demo]; norm_num) (by rw [coord_lat_demo]; norm_num)
      (by rw [spd_demo]; norm_num) (by rw [spd_demo]; norm_num)
  · exact new_message_eq _ (record1 111111111 imei 1 t0
        ++ record16 111111111 2 t1 t2 (40055205 / 1000000) (47423826 / 1000000) 90)
      rfl (by simp only [List.length_append]; omega) (by norm_num : (3 : Nat) < 65536)

/-- C7 witness: the end-to-end statement at the demo IMEI and concrete
clock readings. -/
theorem claim_C7_witness :
    ∃ (s1 s2 s3 : EGTStrack),
      EGTStrack.init 111111111 imeiDemo 500000000 = (s1, none)
    ∧ s1.service = some (record1 111111111 imeiDemo 1 500000000)
    ∧ add_service s1 16 500000020 500000021
        (40055205 / 1000000) (47423826 / 1000000) 90 = (s2, none)
    ∧ s2.service = some (record1 111111111 imeiDemo 1 500000000
        ++ record16 111111111 2 500000020 500000021
             (40055205 / 1000000) (47423826 / 1000000) 90)
    ∧ new_message s2 = some (packetC7 imeiDemo 500000000 500000020 500000021, s3)
    ∧ (packetC7 imeiDemo 500000000 500000020 500000021).get? 3 = some 0x0B
    ∧ s3.pid = 3
    ∧ leBytes 2 3 = [3, 0]
    ∧ (leBytes 2 (data_crc (record1 111111111 imeiDemo 1 500000000
        ++ record16 111111111 2 500000020 500000021
             (40055205 / 1000000) (47423826 / 1000000) 90))).length = 2 :=
  claim_C7 imeiDemo 500000000 500000020 500000021 (by decide) (by norm_num) (by norm_num)
    (by norm_num)
